import Mathlib

/-!
# Verification of the AgentCore workshop pipeline

Shallow embedding of the orchestration scripts of the repository
(`run_workshop.py`, `Implement_labs.py`, `workshop/lab2.py`, `lab3.py`,
`lab4.py`, `workshop/lab6.py`).  Remote AWS calls are modelled by an
environment record giving each call's outcome (`none` / a `Bool` flag
standing for "the call raised"); the control flow of each Python
function is translated branch by branch.  Victory conditions of the
spec (fail-fast, merge-on-save, find-or-create, cleanup resilience,
exit codes) are then settled against these definitions.
-/

set_option autoImplicit false

namespace Agentcore

/-! ## The persisted config file (`lab_config.json`)

A JSON object read and written with `json.load` / `json.dump`; modelled
as an association list with unique-key update, matching Python `dict`
semantics (assignment to an existing key keeps its position, a new key
is appended). -/

abbrev Config := List (String × String)

/-- Lookup of a key, first match (Python `dict` access / `.get`). -/
def getKey : Config → String → Option String
  | [], _ => none
  | (k, v) :: rest, key => if k = key then some v else getKey rest key

/-- Python `dict` assignment `d[k] = v`: replace the entry in place if
the key is present, append a new entry otherwise. -/
def updateKey : Config → String → String → Config
  | [], key, v => [(key, v)]
  | p :: rest, key, v =>
    if p.1 = key then (p.1, v) :: rest else p :: updateKey rest key v

/-- `lab2.py` lines 374-378: Lab 2's save builds a fresh
`{"memory_id": ...}` dict and `json.dump`s it, ignoring whatever the
config file previously held. -/
def lab2_save_config (_prior : Option Config) (memory_id : String) : Config :=
  [("memory_id", memory_id)]

/-- `lab3.py` lines 374-390: Lab 3's save loads the existing file when
present (empty dict otherwise), `dict.update`s it with the two gateway
keys, and rewrites the file. -/
def lab3_save_config (existing : Option Config) (gateway_id gateway_url : String) : Config :=
  let config := existing.getD []
  updateKey (updateKey config "gateway_id" gateway_id) "gateway_url" gateway_url

theorem getKey_updateKey_ne (c : Config) (k key v : String) (h : key ≠ k) :
    getKey (updateKey c k v) key = getKey c key := by
  induction c with
  | nil =>
    simp only [updateKey, getKey]
    rw [if_neg (fun hh => h hh.symm)]
  | cons p rest ih =>
    by_cases hp : p.1 = k
    · simp only [updateKey, if_pos hp, getKey]
      rw [if_neg (fun hh => h (hh.symm.trans hp)), if_neg (fun hh => h (hh.symm.trans hp))]
    · simp only [updateKey, if_neg hp, getKey]
      split
      · rfl
      · exact ih

theorem getKey_updateKey_self (c : Config) (k v : String) :
    getKey (updateKey c k v) k = some v := by
  induction c with
  | nil => simp [updateKey, getKey]
  | cons p rest ih =>
    by_cases hp : p.1 = k
    · simp [updateKey, if_pos hp, getKey, hp]
    · simp only [updateKey, if_neg hp, getKey, if_neg hp]
      exact ih

/-! ## The workshop runner (`run_workshop.py`)

`WorkshopRunner.run_lab` calls `lab_implementation.run()`, which either
returns a `bool` or raises (the raise is caught and turned into
`False`).  The interactive prompts are modelled by answer functions in
the environment. -/

/-- Outcome of one lab implementation's `run()` call: a returned `bool`
or a raised exception. -/
inductive LabOutcome
  | ok (success : Bool)
  | exn
deriving DecidableEq, Repr

/-- Environment of one `WorkshopRunner` run: each lab's `run()` outcome
and the user's answers to the `Confirm.ask` prompts. -/
structure WorkshopEnv where
  labOutcome : Nat → LabOutcome
  /-- Answer to "Ready to start the workshop?". -/
  readyAnswer : Bool
  /-- Answer to "Continue to Lab n+1?" after lab `n` succeeds. -/
  continueAnswer : Nat → Bool
  /-- Answer to "Continue despite failure?" after lab `n` fails. -/
  failAnswer : Nat → Bool
  /-- Answer to "Run Lab 6 to clean up all resources?". -/
  cleanupAnswer : Bool

/-- `run_workshop.py` lines 32-62, `WorkshopRunner.run_lab`.  Note the
failure branch: whatever the answer to "Continue despite failure?", the
function falls through to `return success` (which is `False` there); a
"no" answer merely returns `False` one line earlier. -/
def run_lab (interactive : Bool) (env : WorkshopEnv) (n : Nat) : Bool :=
  match env.labOutcome n with
  | LabOutcome.exn => false
  | LabOutcome.ok success =>
    if success then
      if interactive && decide (n < 5) && !env.continueAnswer n then false
      else success
    else
      if interactive && !env.failAnswer n then false
      else success

/-- `run_workshop.py` lines 116-174, `WorkshopRunner.run_all_labs`.
Returns the list of labs whose `run()` was invoked together with the
returned `bool`.  Lab 3 is skipped by the source (only a note is
printed) and lab 6 runs only in interactive mode, with its result
ignored. -/
def run_all_labs (interactive : Bool) (env : WorkshopEnv) : List Nat × Bool :=
  if interactive && !env.readyAnswer then ([], false)
  else if !(run_lab interactive env 1) then ([1], false)
  else if !(run_lab interactive env 2) then ([1, 2], false)
  else if !(run_lab interactive env 4) then ([1, 2, 4], false)
  else if !(run_lab interactive env 5) then ([1, 2, 4, 5], false)
  else if interactive && env.cleanupAnswer then ([1, 2, 4, 5, 6], true)
  else ([1, 2, 4, 5], true)

/-! ## The lab orchestrator (`Implement_labs.py`) -/

/-- Environment of one `LabOrchestrator` run: prerequisite check
outcome, per-lab `run_lab_n` results (each `run_lab_n` catches its own
exceptions and returns `False`), and prompt answers. -/
structure OrchEnv where
  labSuccess : Nat → Bool
  prereqOk : Bool
  /-- Answer to "Do you want to continue anyway?" when prerequisites fail. -/
  prereqContinueAnswer : Bool
  /-- Answer to "Ready to start Lab 1?". -/
  readyAnswer : Bool
  /-- Answer to "Continue to next lab anyway?" after lab `n` fails. -/
  failContinueAnswer : Nat → Bool
  /-- Answer to "Lab n complete. Continue to next lab?". -/
  pauseAnswer : Nat → Bool

/-- `Implement_labs.py` lines 61-91, `check_prerequisites`: when some
check fails, only interactive mode may refuse; non-interactive mode
still returns `True`. -/
def check_prerequisites (interactive : Bool) (env : OrchEnv) : Bool :=
  if !env.prereqOk then
    if interactive && !env.prereqContinueAnswer then false else true
  else true

/-- `Implement_labs.py` lines 332-350, the `for lab_name, lab_func in
labs` loop: on failure, interactive mode asks "Continue to next lab
anyway?" (no breaks, yes falls through), non-interactive mode breaks;
then all but the last lab ask "Continue to next lab?" in interactive
mode.  Returns the labs whose `run_lab_n` was invoked. -/
def orch_loop (interactive : Bool) (env : OrchEnv) : List Nat → List Nat
  | [] => []
  | n :: rest =>
    if !env.labSuccess n then
      if interactive then
        if !env.failContinueAnswer n then [n]
        else if decide (n ≠ 5) && !env.pauseAnswer n then [n]
        else n :: orch_loop interactive env rest
      else [n]
    else if interactive && decide (n ≠ 5) && !env.pauseAnswer n then [n]
    else n :: orch_loop interactive env rest

/-- `Implement_labs.py` lines 311-353, `LabOrchestrator.run_all_labs`:
prerequisite gate, optional start prompt, then the lab loop over labs
1-5. -/
def orch_run_all_labs (interactive : Bool) (env : OrchEnv) : List Nat :=
  if !(check_prerequisites interactive env) then []
  else if interactive && !env.readyAnswer then []
  else orch_loop interactive env [1, 2, 3, 4, 5]

/-! ## CLI exit codes -/

/-- How a `main()` invocation ends: the selected runner returned, the
user interrupted the process (`KeyboardInterrupt`), or an unhandled
exception escaped. -/
inductive RunEnd
  | finished
  | interrupted
  | errored
deriving DecidableEq, Repr

/-- `run_workshop.py` lines 226-246: `exit(0 if success else 1)` after
a finished run, `exit(1)` on `KeyboardInterrupt`, `exit(1)` on any
other exception. -/
def run_workshop_exit (interactive : Bool) (env : WorkshopEnv) : RunEnd → Nat
  | RunEnd.finished => if (run_all_labs interactive env).2 then 0 else 1
  | RunEnd.interrupted => 1
  | RunEnd.errored => 1

/-- `Implement_labs.py` lines 426-450: the normal path never calls
`sys.exit`, so the process exits 0 whatever the labs returned;
`KeyboardInterrupt` runs `sys.exit(0)`; a fatal exception runs
`sys.exit(1)`. -/
def implement_labs_exit (_interactive : Bool) (_env : OrchEnv) : RunEnd → Nat
  | RunEnd.finished => 0
  | RunEnd.interrupted => 0
  | RunEnd.errored => 1

/-! ## Remote calls and SSM parameter names -/

/-- The SSM parameter names used by the labs. -/
def clientIdParam : String := "/app/customersupport/agentcore/client_id"

def discoveryUrlParam : String := "/app/customersupport/agentcore/cognito_discovery_url"

def gatewayIdParam : String := "/app/customersupport/agentcore/gateway_id"

def gatewayUrlParam : String := "/app/customersupport/agentcore/gateway_url"

def gatewayRoleParam : String := "/app/customersupport/agentcore/gateway_iam_role"

def lambdaArnParam : String := "/app/customersupport/agentcore/lambda_arn"

def runtimeArnParam : String := "/app/customersupport/agentcore/runtime_arn"

def poolIdParam : String := "/app/customersupport/agentcore/pool_id"

/-- One remote API call attempted by a stage, with the arguments that
matter to the claims. -/
inductive RemoteCall
  | ssmGet (name : String)
  | getGateway (gatewayId : String)
  | createGatewayCall (roleArn : String) (clientId : String)
  | putParam (name : String)
  | createGatewayTarget (gatewayId : String) (lambdaArn : String)
  | createMemoryAndWait
deriving DecidableEq, Repr

/-! ## Lab 3: Gateway & Shared Tools (`lab3.py`) -/

/-- The Cognito configuration dict built by `get_or_create_cognito`. -/
structure CognitoConfig where
  client_id : String
  discovery_url : String
  bearer_token : String
deriving DecidableEq, Repr

/-- Environment of a Lab 3 run: outcome of every remote call (`none` /
`false` means the call raised) plus the outcomes of the two local
steps. -/
structure Lab3Env where
  region : String
  /-- `ssm.get_parameter(Name)` by name; `none` means it raised. -/
  ssmParam : String → Option String
  /-- `get_gateway(gatewayIdentifier)['gatewayUrl']`; `none` means it raised. -/
  getGatewayUrl : String → Option String
  /-- `create_gateway(...)`: `none` raised, `some (id, url)` succeeded. -/
  createGatewayResult : Option (String × String)
  /-- Whether `ssm.put_parameter(Name)` succeeds, by name. -/
  ssmPutOk : String → Bool
  /-- `create_gateway_target(...)`: `none` raised, `some targetId` succeeded. -/
  createTargetResult : Option String
  /-- Whether `create_agent_with_gateway` succeeds. -/
  agentOk : Bool
  /-- Whether `test_gateway_integration` succeeds. -/
  testOk : Bool

/-- `lab3.py` lines 30-71, `get_or_create_cognito`: try the two SSM
parameters; any raise falls back to the demo config.  The function
can only return `True`, so the model returns the call trace and the
config. -/
def get_or_create_cognito (env : Lab3Env) : List RemoteCall × CognitoConfig :=
  match env.ssmParam clientIdParam with
  | some cid =>
    match env.ssmParam discoveryUrlParam with
    | some durl =>
      ([RemoteCall.ssmGet clientIdParam, RemoteCall.ssmGet discoveryUrlParam],
       ⟨cid, durl, "mock_token_for_demo"⟩)
    | none =>
      ([RemoteCall.ssmGet clientIdParam, RemoteCall.ssmGet discoveryUrlParam],
       ⟨"demo_client_id", "https://cognito-idp.us-east-1.amazonaws.com/demo", "demo_token"⟩)
  | none =>
    ([RemoteCall.ssmGet clientIdParam],
     ⟨"demo_client_id", "https://cognito-idp.us-east-1.amazonaws.com/demo", "demo_token"⟩)

/-- The placeholder role ARN used when the gateway IAM role is not in
SSM (`lab3.py` line 159). -/
def gatewayPlaceholderRole : String := "arn:aws:iam::123456789012:role/AgentCoreGatewayRole"

/-- `lab3.py` lines 149-195, the create branch of `create_gateway`:
look up the IAM role (placeholder on raise), call `create_gateway`,
then mirror id and url to SSM.  A raise in create or in either put is
caught by the outer handler, so the function returns `False` (`none`
here). -/
def create_gateway_new (env : Lab3Env) (cog : CognitoConfig) (tr : List RemoteCall) :
    List RemoteCall × Option (String × String) :=
  let tr := tr ++ [RemoteCall.ssmGet gatewayRoleParam]
  let roleArn := (env.ssmParam gatewayRoleParam).getD gatewayPlaceholderRole
  match env.createGatewayResult with
  | none => (tr ++ [RemoteCall.createGatewayCall roleArn cog.client_id], none)
  | some (gid, url) =>
    let tr := tr ++ [RemoteCall.createGatewayCall roleArn cog.client_id]
    if env.ssmPutOk gatewayIdParam then
      let tr := tr ++ [RemoteCall.putParam gatewayIdParam]
      if env.ssmPutOk gatewayUrlParam then
        (tr ++ [RemoteCall.putParam gatewayUrlParam], some (gid, url))
      else
        (tr ++ [RemoteCall.putParam gatewayUrlParam], none)
    else
      (tr ++ [RemoteCall.putParam gatewayIdParam], none)

/-- `lab3.py` lines 123-199, `create_gateway`: first try the recorded
gateway id in SSM and `get_gateway`; any raise in that existence check
falls into the create branch.  Returns the call trace and
`some (gateway_id, gateway_url)` on success. -/
def create_gateway (env : Lab3Env) (cog : CognitoConfig) :
    List RemoteCall × Option (String × String) :=
  match env.ssmParam gatewayIdParam with
  | some gid =>
    match env.getGatewayUrl gid with
    | some url =>
      ([RemoteCall.ssmGet gatewayIdParam, RemoteCall.getGateway gid], some (gid, url))
    | none =>
      create_gateway_new env cog [RemoteCall.ssmGet gatewayIdParam, RemoteCall.getGateway gid]
  | none =>
    create_gateway_new env cog [RemoteCall.ssmGet gatewayIdParam]

/-- `lab3.py` lines 201-252, `add_lambda_target`: look up the Lambda
ARN (placeholder on raise), call `create_gateway_target`, and return
`True` even when that call raises ("Continue anyway for demo"). -/
def add_lambda_target (env : Lab3Env) (gateway_id : String) : List RemoteCall × Bool :=
  let lambdaArn := (env.ssmParam lambdaArnParam).getD
    ("arn:aws:lambda:" ++ env.region ++ ":123456789012:function:customer-support-tools")
  let tr := [RemoteCall.ssmGet lambdaArnParam,
             RemoteCall.createGatewayTarget gateway_id lambdaArn]
  match env.createTargetResult with
  | some _ => (tr, true)
  | none => (tr, true)

/-- The steps of `Lab3Implementation.run`, in source order. -/
inductive Lab3Step
  | cognito
  | gateway
  | lambdaTarget
  | agent
  | test
  | saveConfig
deriving DecidableEq, Repr

/-- Result of a Lab 3 run: which steps were entered, every remote call
attempted, the returned `bool`, and the config written on success. -/
structure Lab3RunResult where
  steps : List Lab3Step
  calls : List RemoteCall
  success : Bool
  savedConfig : Option Config
deriving DecidableEq, Repr

/-- `lab3.py` lines 330-398, `Lab3Implementation.run`.  The
`memory_id` passed to `__init__` is stored but never read by `run` or
by any step; there is no missing-dependency check.  Step 3's result is
discarded (`self.add_lambda_target()` with no `if`). -/
def lab3_run (env : Lab3Env) (memory_id : Option String) (existingFile : Option Config) :
    Lab3RunResult :=
  let cognitoRes := get_or_create_cognito env
  let gatewayRes := create_gateway env cognitoRes.2
  match gatewayRes.2 with
  | none =>
    ⟨[Lab3Step.cognito, Lab3Step.gateway], cognitoRes.1 ++ gatewayRes.1, false, none⟩
  | some gw =>
    let targetRes := add_lambda_target env gw.1
    if env.agentOk then
      if env.testOk then
        ⟨[Lab3Step.cognito, Lab3Step.gateway, Lab3Step.lambdaTarget, Lab3Step.agent,
          Lab3Step.test, Lab3Step.saveConfig],
         cognitoRes.1 ++ gatewayRes.1 ++ targetRes.1, true,
         some (lab3_save_config existingFile gw.1 gw.2)⟩
      else
        ⟨[Lab3Step.cognito, Lab3Step.gateway, Lab3Step.lambdaTarget, Lab3Step.agent,
          Lab3Step.test],
         cognitoRes.1 ++ gatewayRes.1 ++ targetRes.1, false, none⟩
    else
      ⟨[Lab3Step.cognito, Lab3Step.gateway, Lab3Step.lambdaTarget, Lab3Step.agent],
       cognitoRes.1 ++ gatewayRes.1 ++ targetRes.1, false, none⟩

/-! ## Lab 2: Memory & Personalization (`workshop/lab2.py`) -/

/-- Environment of a Lab 2 run.  `existingMemory` records whether a
memory resource already exists in the account; the source never reads
it (there is no describe/list before create). -/
structure Lab2Env where
  existingMemory : Option String
  /-- `create_memory_and_wait(...)['id']`; `none` means it raised. -/
  createMemoryResult : Option String
  /-- Whether `create_event` (seeding) succeeds. -/
  createEventOk : Bool
  /-- `retrieve_memories` at attempt `k` (0-based): `none` raised,
  `some ms` returned the list `ms`. -/
  retrieve : Nat → Option (List String)
  /-- Whether `create_memory_hooks` succeeds (its `get_memory_strategies`
  call may raise, which the outer handler of `run` turns into `False`). -/
  hooksOk : Bool
  /-- Whether `create_agent_with_memory` succeeds. -/
  agentOk : Bool
  /-- Whether `test_personalization` succeeds. -/
  testOk : Bool

/-- `lab2.py` lines 31-83, `create_memory_resource`: build the
strategies and call `create_memory_and_wait` directly — no describe or
list call precedes the create. -/
def create_memory_resource (env : Lab2Env) : List RemoteCall × Option String :=
  match env.createMemoryResult with
  | some mid => ([RemoteCall.createMemoryAndWait], some mid)
  | none => ([RemoteCall.createMemoryAndWait], none)

/-- `lab2.py` lines 115-151, the retry loop of
`wait_for_memory_processing` (fuel is the remaining iterations of
`for retry in range(max_retries)`): a raise sleeps and continues, a
non-empty result returns `True`, an empty result sleeps and continues;
falling off the loop returns `True` ("Continue anyway").  Returns the
result together with the number of `retrieve_memories` attempts. -/
def wait_from (retrieve : Nat → Option (List String)) (retry : Nat) :
    Nat → Nat → Bool × Nat
  | 0, attempts => (true, attempts)
  | remaining + 1, attempts =>
    match retrieve retry with
    | none => wait_from retrieve (retry + 1) remaining (attempts + 1)
    | some ms =>
      if ms.isEmpty then wait_from retrieve (retry + 1) remaining (attempts + 1)
      else (true, attempts + 1)

/-- `lab2.py` lines 115-151, `wait_for_memory_processing` with
`max_retries = 6`. -/
def wait_for_memory_processing (retrieve : Nat → Option (List String)) : Bool × Nat :=
  wait_from retrieve 0 6 0

/-- `lab2.py` lines 326-386, `Lab2Implementation.run`: steps 1, 2, 5
and 6 gate on their result; step 3's result is discarded; step 4 can
only fail by raising (caught by the outer handler).  On success the
config file is rewritten by `lab2_save_config`. -/
def lab2_run (env : Lab2Env) (existingFile : Option Config) : Bool × Option Config :=
  match env.createMemoryResult with
  | none => (false, none)
  | some mid =>
    if !env.createEventOk then (false, none)
    else
      let _wait := wait_for_memory_processing env.retrieve
      if !env.hooksOk then (false, none)
      else if !env.agentOk then (false, none)
      else if !env.testOk then (false, none)
      else (true, some (lab2_save_config existingFile mid))

/-! ## Lab 4: Production Runtime (`lab4.py`), the execution role -/

/-- Environment of `create_execution_role`: the `iam.get_role` result
(`none` means it raised). -/
structure Lab4Env where
  getRoleArn : Option String

/-- The placeholder execution role ARN (`lab4.py` lines 155 and 159). -/
def runtimePlaceholderRole : String := "arn:aws:iam::123456789012:role/AgentCoreRuntimeExecutionRole"

/-- `lab4.py` lines 138-159, `create_execution_role`: return the
existing role's ARN when `get_role` succeeds; any raise (inner or
outer) returns the placeholder ARN. -/
def create_execution_role (env : Lab4Env) : String :=
  match env.getRoleArn with
  | some arn => arn
  | none => runtimePlaceholderRole

/-! ## Lab 6: Complete Cleanup (`workshop/lab6.py`)

Every deletion attempt in the source sits in its own `try/except`; the
six category routines each end in `return True` on every path, and
failures are recorded as strings in `cleanup_summary` (the ledger) or
only printed.  The exception text appended to a warning entry
(`str(e)[:50]`) is elided here; only the fixed prefix is kept. -/

/-- The six cleanup categories, in the order `run` sweeps them. -/
inductive CleanupCategory
  | memory
  | runtime
  | gateway
  | security
  | observability
  | files
deriving DecidableEq, Repr

/-- Environment of a Lab 6 run: the local config file, SSM lookups,
and the outcome of each deletion attempt (`false`/`none` means the
call raised). -/
structure Lab6Env where
  configFile : Option Config
  ssmGet : String → Option String
  /-- Whether importing/constructing `MemoryClient` succeeds. -/
  memoryClientOk : Bool
  deleteMemoryOk : Bool
  deleteEcrOk : Bool
  iamDeleteRoleOk : Bool
  ssmDeleteOk : String → Bool
  cognitoDeletePoolOk : Bool
  secretsDeleteOk : Bool
  /-- `describe_log_groups(logGroupNamePrefix)`: `none` raised,
  `some gs` returned the group names `gs`. -/
  logGroups : String → Option (List String)
  deleteLogGroupOk : String → Bool
  itemExists : String → Bool
  itemIsFile : String → Bool
  removeOk : String → Bool
  /-- Answer to "Do you want to proceed with cleanup?". -/
  confirmAnswer : Bool

/-- `lab6.py` lines 36-77, `load_configuration`: start from the local
file (empty dict when absent), then overlay three SSM parameters,
silently skipping any lookup that raises. -/
def load_configuration (env : Lab6Env) : Config :=
  let config := env.configFile.getD []
  let config := match env.ssmGet runtimeArnParam with
    | some v => updateKey config "runtime_arn" v
    | none => config
  let config := match env.ssmGet gatewayUrlParam with
    | some v => updateKey config "gateway_url" v
    | none => config
  match env.ssmGet poolIdParam with
  | some v => updateKey config "pool_id" v
  | none => config

/-- `lab6.py` lines 79-111, `cleanup_memory_resources`: when a
`memory_id` is known, try `delete_memory`; the raise is recorded as a
warning ledger entry.  Both the inner and the outer handler end in
`return True`. -/
def cleanup_memory_resources (env : Lab6Env) (config : Config) : List String × Bool :=
  if env.memoryClientOk then
    match getKey config "memory_id" with
    | some mid =>
      if env.deleteMemoryOk then
        (["Memory " ++ mid.take 16 ++ "... deleted"], true)
      else
        (["Memory cleanup warning:"], true)
    | none => ([], true)
  else ([], true)

/-- Python `arn.split("/")[-1]`: the characters after the last slash
(the whole string when there is none). -/
def lastSegment (s : String) : String :=
  String.mk (s.data.foldl (fun acc c => if c = '/' then [] else acc.concat c) [])

/-- `lab6.py` lines 113-156, `cleanup_runtime_resources`: the
`delete_agent_runtime` call is commented out in the source, so the
"Runtime deleted" entry is recorded unconditionally when an ARN is
known; the ECR deletion is real and its raise is only printed (no
ledger entry). -/
def cleanup_runtime_resources (env : Lab6Env) (config : Config) : List String × Bool :=
  match getKey config "runtime_arn" with
  | some arn =>
    let runtimeId := lastSegment arn
    let e1 := ["Runtime " ++ runtimeId ++ " deleted"]
    let e2 := if env.deleteEcrOk then ["ECR repository customer-support-agent-runtime deleted"]
      else []
    (e1 ++ e2, true)
  | none => ([], true)

/-- `lab6.py` lines 158-192, `cleanup_gateway_resources`: the
`delete_gateway` call is commented out in the source, so when a
gateway URL is known the success entry is recorded without any remote
call. -/
def cleanup_gateway_resources (config : Config) : List String × Bool :=
  match getKey config "gateway_url" with
  | some _ => (["Gateway and targets deleted"], true)
  | none => ([], true)

/-- The five SSM parameters deleted by `cleanup_security_resources`. -/
def securityParams : List String :=
  [runtimeArnParam, gatewayUrlParam, clientIdParam, poolIdParam, discoveryUrlParam]

/-- `lab6.py` lines 194-313, `cleanup_security_resources`: IAM role
(detach/inline deletions are try/except-pass with no entries; the role
deletion records an entry on success only), the five SSM parameters
(entry per successful delete), the Cognito pool (entry on success),
and the secret (entry on success).  Every failure is printed or passed
over; the function returns `True` on every path. -/
def cleanup_security_resources (env : Lab6Env) (config : Config) : List String × Bool :=
  let roleEntries :=
    if env.iamDeleteRoleOk then ["IAM role AgentCoreRuntimeExecutionRole deleted"] else []
  let ssmEntries := securityParams.filterMap (fun p =>
    if env.ssmDeleteOk p then some ("SSM parameter " ++ p ++ " deleted") else none)
  let cognitoEntries :=
    match getKey config "pool_id" with
    | some _ => if env.cognitoDeletePoolOk then ["Cognito user pool deleted"] else []
    | none => []
  let secretEntries :=
    if env.secretsDeleteOk then ["Secret customer-support-secret deleted"] else []
  (roleEntries ++ ssmEntries ++ cognitoEntries ++ secretEntries, true)

/-- The three log-group prefixes of `cleanup_observability_resources`. -/
def observabilityPrefixes : List String :=
  ["/aws/bedrock/agentcore/runtime", "/aws/bedrock/agentcore/gateway",
   "/aws/lambda/customer-support"]

/-- `lab6.py` lines 315-354, `cleanup_observability_resources`: for
each prefix, describe the log groups (a raise skips the prefix) and
delete each (a raise is printed only); returns `True` on every path. -/
def cleanup_observability_resources (env : Lab6Env) : List String × Bool :=
  let entries := observabilityPrefixes.flatMap (fun pfx =>
    match env.logGroups pfx with
    | none => []
    | some groups => groups.filterMap (fun g =>
        if env.deleteLogGroupOk g then some ("Log group " ++ g ++ " deleted") else none))
  (entries, true)

/-- The local items removed by `cleanup_local_files`. -/
def itemsToRemove : List String :=
  ["lab_config.json", "runtime_agent", "streamlit_app", ".bedrock_agentcore.yaml", "Dockerfile"]

/-- `lab6.py` lines 356-391, `cleanup_local_files`: remove each
existing file or directory, recording an entry per successful removal;
a raise is printed only.  Returns `True` on every path. -/
def cleanup_local_files (env : Lab6Env) : List String × Bool :=
  let entries := itemsToRemove.filterMap (fun item =>
    if env.itemExists item then
      if env.removeOk item then
        some ((if env.itemIsFile item then "File " else "Directory ") ++ item ++ " deleted")
      else none
    else none)
  (entries, true)

/-- The `cleanup_summary` dict of `Lab6Implementation`. -/
structure Lab6Ledger where
  memory : List String
  runtime : List String
  gateway : List String
  security : List String
  observability : List String
  files : List String
deriving DecidableEq, Repr

/-- Result of a Lab 6 run: the categories attempted, the ledger, and
the returned `bool`. -/
structure Lab6RunResult where
  attempted : List CleanupCategory
  ledger : Lab6Ledger
  success : Bool
deriving DecidableEq, Repr

/-- The full category sweep order of `Lab6Implementation.run`. -/
def allCategories : List CleanupCategory :=
  [CleanupCategory.memory, CleanupCategory.runtime, CleanupCategory.gateway,
   CleanupCategory.security, CleanupCategory.observability, CleanupCategory.files]

/-- `lab6.py` lines 438-501, `Lab6Implementation.run`: optional
confirmation prompt, `load_configuration`, then the six category
routines in order (their `True` results are not even inspected), and
`return True`. -/
def lab6_run (interactive : Bool) (env : Lab6Env) : Lab6RunResult :=
  if interactive && !env.confirmAnswer then
    ⟨[], ⟨[], [], [], [], [], []⟩, false⟩
  else
    let config := load_configuration env
    let m := cleanup_memory_resources env config
    let r := cleanup_runtime_resources env config
    let g := cleanup_gateway_resources config
    let s := cleanup_security_resources env config
    let o := cleanup_observability_resources env
    let f := cleanup_local_files env
    ⟨allCategories, ⟨m.1, r.1, g.1, s.1, o.1, f.1⟩, true⟩

/-! ## Claim C2: save/load round trip -/

/-- C2, counterexample: with `{"gateway_id": "g-1"}` persisted, the
memory stage's save (`lab2.py` lines 374-378) rewrites the file to
`{"memory_id": "m-1"}`, and loading no longer finds `gateway_id` — the
save overwrites with loss, so the round-trip property fails. -/
theorem c2_memory_save_loses_keys :
    getKey [("gateway_id", "g-1")] "gateway_id" = some "g-1" ∧
    lab2_save_config (some [("gateway_id", "g-1")]) "m-1" = [("memory_id", "m-1")] ∧
    getKey (lab2_save_config (some [("gateway_id", "g-1")]) "m-1") "gateway_id" = none := by
  refine ⟨by decide, rfl, by decide⟩

/-- C2, amended: the gateway stage's save (`lab3.py` lines 374-390)
does merge — after it, every previously persisted key other than the
two it writes is still present, and the two new keys are present; the
memory stage's save, however, ignores the prior file entirely and
rewrites it to the single-key dict `{"memory_id": ...}`, losing every
previously persisted key. -/
theorem c2_save_load_merge_amended :
    (∀ (c : Config) (gid gurl key v : String), key ≠ "gateway_id" → key ≠ "gateway_url" →
        getKey c key = some v → getKey (lab3_save_config (some c) gid gurl) key = some v) ∧
    (∀ (c : Config) (gid gurl : String),
        getKey (lab3_save_config (some c) gid gurl) "gateway_id" = some gid ∧
        getKey (lab3_save_config (some c) gid gurl) "gateway_url" = some gurl) ∧
    (∀ (prior : Option Config) (mid : String),
        lab2_save_config prior mid = [("memory_id", mid)]) := by
  refine ⟨?_, ?_, fun _ _ => rfl⟩
  · intro c gid gurl key v h1 h2 hv
    unfold lab3_save_config
    rw [getKey_updateKey_ne _ _ _ _ h2, getKey_updateKey_ne _ _ _ _ h1]
    exact hv
  · intro c gid gurl
    refine ⟨?_, ?_⟩
    · unfold lab3_save_config
      rw [getKey_updateKey_ne _ _ _ _ (by decide), getKey_updateKey_self]
    · unfold lab3_save_config
      rw [getKey_updateKey_self]

/-- Closed instance of `c2_save_load_merge_amended`: a `memory_id`
persisted before the gateway stage survives its save. -/
theorem c2_merge_witness :
    getKey [("memory_id", "m-1")] "memory_id" = some "m-1" ∧
    getKey (lab3_save_config (some [("memory_id", "m-1")]) "g-1" "https://gw.example.com")
      "memory_id" = some "m-1" :=
  ⟨by decide,
   c2_save_load_merge_amended.1 [("memory_id", "m-1")] "g-1" "https://gw.example.com"
     "memory_id" "m-1" (by decide) (by decide) (by decide)⟩

/-! ## Claim C4: gateway stage with an empty persisted config -/

/-- Environment in which every SSM lookup raises (nothing persisted
remotely), the gateway create succeeds, and the local steps succeed. -/
def c4Env : Lab3Env where
  region := "us-east-1"
  ssmParam := fun _ => none
  getGatewayUrl := fun _ => none
  createGatewayResult := some ("customersupport-gw-id", "https://gateway.example.com/mcp")
  ssmPutOk := fun _ => true
  createTargetResult := none
  agentOk := true
  testOk := true

/-- C4, counterexample: with an empty persisted config and no
`memory_id`, the gateway stage does not fail with a missing-dependency
error and does attempt remote calls — in `c4Env` its run returns
success, and its call trace is non-empty. -/
theorem c4_gateway_no_missing_dependency :
    (lab3_run c4Env none none).success = true ∧
    (lab3_run c4Env none none).calls ≠ [] := by
  refine ⟨rfl, by decide⟩

/-- In every branch, `get_or_create_cognito` attempts the client-id
SSM lookup first. -/
theorem get_or_create_cognito_calls (env : Lab3Env) :
    ∃ rest, (get_or_create_cognito env).1 = RemoteCall.ssmGet clientIdParam :: rest := by
  unfold get_or_create_cognito
  cases env.ssmParam clientIdParam with
  | none => exact ⟨[], rfl⟩
  | some cid =>
    cases env.ssmParam discoveryUrlParam with
    | none => exact ⟨[RemoteCall.ssmGet discoveryUrlParam], rfl⟩
    | some durl => exact ⟨[RemoteCall.ssmGet discoveryUrlParam], rfl⟩

/-- C4, amended: `Lab3Implementation.run` never reads the `memory_id`
it was given — its whole result is the same with and without one, so
no missing-dependency failure exists — and every run attempts remote
calls (the Cognito SSM lookup comes first). -/
theorem c4_memory_id_unused_amended :
    (∀ (env : Lab3Env) (m : Option String) (file : Option Config),
        lab3_run env m file = lab3_run env none file) ∧
    (∀ (env : Lab3Env) (m : Option String) (file : Option Config),
        (lab3_run env m file).calls ≠ []) := by
  refine ⟨fun env m file => rfl, ?_⟩
  intro env m file
  obtain ⟨rest, hc⟩ := get_or_create_cognito_calls env
  unfold lab3_run
  cases hg : (create_gateway env (get_or_create_cognito env).2).2 with
  | none => simp [hg, hc]
  | some gw =>
    by_cases ha : env.agentOk <;> by_cases ht : env.testOk <;> simp [hg, ha, ht, hc]

/-! ## Claim C6: CLI exit codes -/

/-- An arbitrary orchestrator environment for evaluating
`implement_labs_exit`. -/
def c6Env : OrchEnv where
  labSuccess := fun _ => false
  prereqOk := true
  prereqContinueAnswer := true
  readyAnswer := true
  failContinueAnswer := fun _ => true
  pauseAnswer := fun _ => true

/-- C6, counterexample: `Implement_labs.py` handles
`KeyboardInterrupt` with `sys.exit(0)`, so that CLI entry point exits
0 — not 1 — on user interrupt. -/
theorem c6_interrupt_exit_zero :
    implement_labs_exit false c6Env RunEnd.interrupted = 0 ∧ (0 : Nat) ≠ 1 :=
  ⟨rfl, by decide⟩

/-- C6, amended: `run_workshop.py`'s entry point exits 0 exactly when
the run succeeded and 1 on failure, interrupt, or error;
`Implement_labs.py`'s entry point exits 1 only on a fatal exception —
it exits 0 on user interrupt and 0 after a finished run regardless of
lab failures. -/
theorem c6_exit_codes_amended :
    (∀ (interactive : Bool) (env : WorkshopEnv),
        (run_workshop_exit interactive env RunEnd.finished = 0 ↔
          (run_all_labs interactive env).2 = true) ∧
        run_workshop_exit interactive env RunEnd.interrupted = 1 ∧
        run_workshop_exit interactive env RunEnd.errored = 1) ∧
    (∀ (interactive : Bool) (env : OrchEnv),
        implement_labs_exit interactive env RunEnd.finished = 0 ∧
        implement_labs_exit interactive env RunEnd.interrupted = 0 ∧
        implement_labs_exit interactive env RunEnd.errored = 1) := by
  constructor
  · intro i env
    refine ⟨?_, rfl, rfl⟩
    unfold run_workshop_exit
    cases h : (run_all_labs i env).2 <;> simp
  · intro i env
    exact ⟨rfl, rfl, rfl⟩

/-! ## Claim C10: the memory-processing wait -/

/-- The wait loop performs at most one `retrieve_memories` attempt per
unit of remaining fuel. -/
theorem wait_from_attempts_le (retrieve : Nat → Option (List String)) :
    ∀ (remaining : Nat) (retry attempts : Nat),
      (wait_from retrieve retry remaining attempts).2 ≤ attempts + remaining := by
  intro remaining
  induction remaining with
  | zero => intro retry attempts; simp [wait_from]
  | succ r ih =>
    intro retry attempts
    unfold wait_from
    cases retrieve retry with
    | none =>
      calc (wait_from retrieve (retry + 1) r (attempts + 1)).2 ≤ attempts + 1 + r := ih _ _
        _ = attempts + (r + 1) := by omega
    | some ms =>
      by_cases h : ms.isEmpty
      · simp only [h, if_true]
        calc (wait_from retrieve (retry + 1) r (attempts + 1)).2 ≤ attempts + 1 + r := ih _ _
          _ = attempts + (r + 1) := by omega
      · simp [h]

/-- The wait loop returns `true` on every path. -/
theorem wait_from_result_true (retrieve : Nat → Option (List String)) :
    ∀ (remaining : Nat) (retry attempts : Nat),
      (wait_from retrieve retry remaining attempts).1 = true := by
  intro remaining
  induction remaining with
  | zero => intro retry attempts; rfl
  | succ r ih =>
    intro retry attempts
    unfold wait_from
    cases retrieve retry with
    | none => exact ih _ _
    | some ms =>
      by_cases h : ms.isEmpty
      · simp only [h, if_true]
        exact ih _ _
      · simp [h]

/-- C10: `wait_for_memory_processing` returns `True` for every
sequence of retrieve outcomes (found, empty, or raising), performs at
most 6 retrieve attempts, and `Lab2Implementation.run` discards its
result — the stage's outcome is identical for any two retrieve
behaviours, so a processing timeout can never fail the stage. -/
theorem c10_wait_always_true :
    (∀ retrieve : Nat → Option (List String),
        (wait_for_memory_processing retrieve).1 = true) ∧
    (∀ retrieve : Nat → Option (List String),
        (wait_for_memory_processing retrieve).2 ≤ 6) ∧
    (∀ (env : Lab2Env) (r1 r2 : Nat → Option (List String)) (file : Option Config),
        lab2_run { env with retrieve := r1 } file = lab2_run { env with retrieve := r2 } file) := by
  refine ⟨?_, ?_, ?_⟩
  · intro retrieve
    exact wait_from_result_true retrieve 6 0 0
  · intro retrieve
    exact wait_from_attempts_le retrieve 6 0 0
  · intro env r1 r2 file
    rfl

/-! ## Claim C1: non-interactive fail-fast -/

/-- In non-interactive mode, `run_lab` returns `True` exactly when the
lab's `run()` returned `True` (the prompts are skipped). -/
theorem run_lab_noninteractive (env : WorkshopEnv) (n : Nat) :
    run_lab false env n = true ↔ env.labOutcome n = LabOutcome.ok true := by
  unfold run_lab
  cases h : env.labOutcome n with
  | exn => simp
  | ok s => cases s <;> simp

/-- In non-interactive mode, the `orch_loop` step keeps going exactly
on success and cuts the run at a failed lab. -/
theorem orch_loop_noninteractive (env : OrchEnv) (n : Nat) (rest : List Nat) :
    orch_loop false env (n :: rest) =
      if env.labSuccess n then n :: orch_loop false env rest else [n] := by
  conv_lhs => rw [orch_loop]
  cases h : env.labSuccess n <;> simp [h]

/-- In non-interactive mode the prerequisite gate always passes and
the start prompt is skipped, so `orch_run_all_labs` is the loop over
labs 1-5. -/
theorem orch_run_all_labs_noninteractive (env : OrchEnv) :
    orch_run_all_labs false env = orch_loop false env [1, 2, 3, 4, 5] := by
  unfold orch_run_all_labs check_prerequisites
  cases h : env.prereqOk <;> simp [h]

/-- C1: fail-fast in non-interactive mode, for both orchestrators.
In `run_workshop.py`, if lab `i`'s `run()` did not return `True`, no
lab numbered above `i` has its `run()` invoked; likewise in
`Implement_labs.py` when `run_lab_i` reports failure. -/
theorem c1_noninteractive_fail_fast :
    (∀ (env : WorkshopEnv) (i j : Nat), i ∈ ([1, 2, 4, 5] : List Nat) →
        env.labOutcome i ≠ LabOutcome.ok true →
        j ∈ (run_all_labs false env).1 → j ≤ i) ∧
    (∀ (env : OrchEnv) (i j : Nat), i ∈ ([1, 2, 3, 4, 5] : List Nat) →
        env.labSuccess i = false →
        j ∈ orch_run_all_labs false env → j ≤ i) := by
  constructor
  · intro env i j hi hout hj
    have hfail : run_lab false env i = false := by
      cases hrl : run_lab false env i
      · rfl
      · exact absurd ((run_lab_noninteractive env i).mp hrl) hout
    simp only [List.mem_cons, List.mem_singleton, List.not_mem_nil, or_false] at hi
    rcases hi with rfl | rfl | rfl | rfl
    · simp [run_all_labs, hfail] at hj
      omega
    · cases h1 : run_lab false env 1 with
      | false => simp [run_all_labs, h1] at hj; omega
      | true => simp [run_all_labs, h1, hfail] at hj; omega
    · cases h1 : run_lab false env 1 with
      | false => simp [run_all_labs, h1] at hj; omega
      | true =>
        cases h2 : run_lab false env 2 with
        | false => simp [run_all_labs, h1, h2] at hj; omega
        | true => simp [run_all_labs, h1, h2, hfail] at hj; omega
    · cases h1 : run_lab false env 1 with
      | false => simp [run_all_labs, h1] at hj; omega
      | true =>
        cases h2 : run_lab false env 2 with
        | false => simp [run_all_labs, h1, h2] at hj; omega
        | true =>
          cases h4 : run_lab false env 4 with
          | false => simp [run_all_labs, h1, h2, h4] at hj; omega
          | true => simp [run_all_labs, h1, h2, h4, hfail] at hj; omega
  · intro env i j hi hfail hj
    rw [orch_run_all_labs_noninteractive] at hj
    simp only [List.mem_cons, List.mem_singleton, List.not_mem_nil, or_false] at hi
    rcases hi with rfl | rfl | rfl | rfl | rfl
    · simp [orch_loop_noninteractive, hfail] at hj
      omega
    · cases h1 : env.labSuccess 1 with
      | false => simp [orch_loop_noninteractive, h1] at hj; omega
      | true => simp [orch_loop_noninteractive, h1, hfail] at hj; omega
    · cases h1 : env.labSuccess 1 with
      | false => simp [orch_loop_noninteractive, h1] at hj; omega
      | true =>
        cases h2 : env.labSuccess 2 with
        | false => simp [orch_loop_noninteractive, h1, h2] at hj; omega
        | true => simp [orch_loop_noninteractive, h1, h2, hfail] at hj; omega
    · cases h1 : env.labSuccess 1 with
      | false => simp [orch_loop_noninteractive, h1] at hj; omega
      | true =>
        cases h2 : env.labSuccess 2 with
        | false => simp [orch_loop_noninteractive, h1, h2] at hj; omega
        | true =>
          cases h3 : env.labSuccess 3 with
          | false => simp [orch_loop_noninteractive, h1, h2, h3] at hj; omega
          | true => simp [orch_loop_noninteractive, h1, h2, h3, hfail] at hj; omega
    · cases h1 : env.labSuccess 1 with
      | false => simp [orch_loop_noninteractive, h1] at hj; omega
      | true =>
        cases h2 : env.labSuccess 2 with
        | false => simp [orch_loop_noninteractive, h1, h2] at hj; omega
        | true =>
          cases h3 : env.labSuccess 3 with
          | false => simp [orch_loop_noninteractive, h1, h2, h3] at hj; omega
          | true =>
            cases h4 : env.labSuccess 4 with
            | false => simp [orch_loop_noninteractive, h1, h2, h3, h4] at hj; omega
            | true => simp [orch_loop_noninteractive, h1, h2, h3, h4, hfail] at hj; omega

/-- Workshop environment in which every lab's `run()` returns `False`. -/
def c1WorkshopEnv : WorkshopEnv where
  labOutcome := fun _ => LabOutcome.ok false
  readyAnswer := true
  continueAnswer := fun _ => true
  failAnswer := fun _ => true
  cleanupAnswer := true

/-- Closed instance of `c1_noninteractive_fail_fast`: when lab 1 fails
non-interactively, the only lab run is lab 1. -/
theorem c1_fail_fast_witness :
    (1 ∈ ([1, 2, 4, 5] : List Nat)) ∧
    c1WorkshopEnv.labOutcome 1 ≠ LabOutcome.ok true ∧
    (1 ∈ (run_all_labs false c1WorkshopEnv).1) ∧ (1 : Nat) ≤ 1 :=
  ⟨by decide, by decide, by decide,
   c1_noninteractive_fail_fast.1 c1WorkshopEnv 1 1 (by decide) (by decide) (by decide)⟩

/-! ## Claim C3: "continue despite failure" in interactive mode -/

/-- Workshop environment: lab 1's `run()` returns `False`, every other
lab succeeds, and the user answers yes to every prompt — in
particular, yes to "Continue despite failure?". -/
def c3Env : WorkshopEnv where
  labOutcome := fun n => if n = 1 then LabOutcome.ok false else LabOutcome.ok true
  readyAnswer := true
  continueAnswer := fun _ => true
  failAnswer := fun _ => true
  cleanupAnswer := false

/-- Orchestrator environment with the same scenario for
`Implement_labs.py`. -/
def c3OrchEnv : OrchEnv where
  labSuccess := fun n => decide (n ≠ 1)
  prereqOk := true
  prereqContinueAnswer := true
  readyAnswer := true
  failContinueAnswer := fun _ => true
  pauseAnswer := fun _ => true

/-- C3, the failing input: in `run_workshop.py`, after lab 1 fails and
the user answers YES to "Continue despite failure?", `run_lab` still
falls through to `return success` (`False`), so `run_all_labs` aborts
with only lab 1 executed — the yes answer has no effect.  In
`Implement_labs.py` the same scenario proceeds through labs 2-5, which
is the behaviour the prompt (and the spec) describe. -/
theorem c3_continue_despite_failure_ignored :
    c3Env.failAnswer 1 = true ∧
    run_lab true c3Env 1 = false ∧
    run_all_labs true c3Env = ([1], false) ∧
    orch_run_all_labs true c3OrchEnv = [1, 2, 3, 4, 5] := by
  refine ⟨rfl, rfl, by decide, by decide⟩

/-! ## Claim C5: find-or-create -/

/-- Lab 2 environment in which a memory resource already exists in the
account. -/
def c5Lab2Env : Lab2Env where
  existingMemory := some "CustomerSupportMemory-existing"
  createMemoryResult := some "CustomerSupportMemory-2"
  createEventOk := true
  retrieve := fun _ => some []
  hooksOk := true
  agentOk := true
  testOk := true

/-- C5, counterexample: the memory stage does not check for an
existing memory resource — even with one already present,
`create_memory_resource` issues exactly one creation call and zero
describe/list calls, so a repeat invocation does not perform zero
creation calls. -/
theorem c5_memory_create_without_describe :
    c5Lab2Env.existingMemory = some "CustomerSupportMemory-existing" ∧
    (create_memory_resource c5Lab2Env).1 = [RemoteCall.createMemoryAndWait] :=
  ⟨rfl, rfl⟩

/-- C5, amended: the gateway stage does follow find-or-create — when a
gateway id is recorded in SSM and `get_gateway` answers, its trace is
exactly the two lookup calls, it returns the existing handle, and it
performs zero creation calls; the memory stage performs no existence
check and always issues exactly one creation call. -/
theorem c5_find_or_create_amended :
    (∀ (env : Lab3Env) (cog : CognitoConfig) (gid url : String),
        env.ssmParam gatewayIdParam = some gid →
        env.getGatewayUrl gid = some url →
        (create_gateway env cog).1 =
          [RemoteCall.ssmGet gatewayIdParam, RemoteCall.getGateway gid] ∧
        (create_gateway env cog).2 = some (gid, url) ∧
        (∀ r c, RemoteCall.createGatewayCall r c ∉ (create_gateway env cog).1)) ∧
    (∀ env : Lab2Env, (create_memory_resource env).1 = [RemoteCall.createMemoryAndWait]) := by
  constructor
  · intro env cog gid url h1 h2
    have hcg : create_gateway env cog =
        ([RemoteCall.ssmGet gatewayIdParam, RemoteCall.getGateway gid], some (gid, url)) := by
      unfold create_gateway
      simp [h1, h2]
    refine ⟨by rw [hcg], by rw [hcg], ?_⟩
    intro r c
    rw [hcg]
    simp
  · intro env
    unfold create_memory_resource
    cases env.createMemoryResult <;> rfl

/-- Lab 3 environment in which a gateway id is already recorded in SSM
and the gateway still exists. -/
def c5Lab3Env : Lab3Env where
  region := "us-east-1"
  ssmParam := fun name => if name = gatewayIdParam then some "gw-existing" else none
  getGatewayUrl := fun _ => some "https://gateway.example.com/mcp"
  createGatewayResult := some ("gw-new", "https://new.example.com")
  ssmPutOk := fun _ => true
  createTargetResult := some "target-1"
  agentOk := true
  testOk := true

/-- Closed instance of `c5_find_or_create_amended`: with a recorded
gateway, `create_gateway` returns the existing handle. -/
theorem c5_find_or_create_witness :
    c5Lab3Env.ssmParam gatewayIdParam = some "gw-existing" ∧
    (create_gateway c5Lab3Env ⟨"demo_client_id", "https://disc.example.com", "t"⟩).2 =
      some ("gw-existing", "https://gateway.example.com/mcp") :=
  ⟨by decide,
   (c5_find_or_create_amended.1 c5Lab3Env ⟨"demo_client_id", "https://disc.example.com", "t"⟩
     "gw-existing" "https://gateway.example.com/mcp" (by decide) rfl).2.1⟩

/-! ## Claim C7: failed existence lookups mean "absent" -/

/-- Whatever the remaining environment does, the create branch of
`create_gateway` attempts the `create_gateway` call with the role ARN
resolved by lookup-or-placeholder. -/
theorem createGatewayCall_mem_new (env : Lab3Env) (cog : CognitoConfig)
    (tr : List RemoteCall) :
    RemoteCall.createGatewayCall ((env.ssmParam gatewayRoleParam).getD gatewayPlaceholderRole)
      cog.client_id ∈ (create_gateway_new env cog tr).1 := by
  unfold create_gateway_new
  cases hc : env.createGatewayResult with
  | none => simp
  | some gw =>
    obtain ⟨gid, url⟩ := gw
    by_cases h1 : env.ssmPutOk gatewayIdParam <;> by_cases h2 : env.ssmPutOk gatewayUrlParam <;>
      simp [h1, h2]

/-- C7: a raising existence lookup is treated as absence.  If the
gateway-id SSM lookup raises, or the lookup succeeds but `get_gateway`
raises, `create_gateway` proceeds to attempt creation; if the IAM-role
lookup also raises, the creation is attempted with the placeholder
role; and in Lab 4, a raising `get_role` makes `create_execution_role`
return the placeholder ARN instead of escalating. -/
theorem c7_lookup_failure_means_absent :
    (∀ (env : Lab3Env) (cog : CognitoConfig),
        env.ssmParam gatewayIdParam = none →
        ∃ r c, RemoteCall.createGatewayCall r c ∈ (create_gateway env cog).1) ∧
    (∀ (env : Lab3Env) (cog : CognitoConfig) (gid : String),
        env.ssmParam gatewayIdParam = some gid →
        env.getGatewayUrl gid = none →
        ∃ r c, RemoteCall.createGatewayCall r c ∈ (create_gateway env cog).1) ∧
    (∀ (env : Lab3Env) (cog : CognitoConfig),
        env.ssmParam gatewayIdParam = none →
        env.ssmParam gatewayRoleParam = none →
        RemoteCall.createGatewayCall gatewayPlaceholderRole cog.client_id
          ∈ (create_gateway env cog).1) ∧
    (∀ env : Lab4Env, env.getRoleArn = none →
        create_execution_role env = runtimePlaceholderRole) := by
  refine ⟨?_, ?_, ?_, ?_⟩
  · intro env cog h1
    unfold create_gateway
    simp only [h1]
    exact ⟨_, _, createGatewayCall_mem_new env cog _⟩
  · intro env cog gid h1 h2
    unfold create_gateway
    simp only [h1, h2]
    exact ⟨_, _, createGatewayCall_mem_new env cog _⟩
  · intro env cog h1 hrole
    have := createGatewayCall_mem_new env cog [RemoteCall.ssmGet gatewayIdParam]
    rw [hrole] at this
    unfold create_gateway
    simp only [h1]
    exact this
  · intro env h
    unfold create_execution_role
    rw [h]

/-- Lab 3 environment in which every remote lookup raises. -/
def c7Lab3Env : Lab3Env where
  region := "us-east-1"
  ssmParam := fun _ => none
  getGatewayUrl := fun _ => none
  createGatewayResult := none
  ssmPutOk := fun _ => false
  createTargetResult := none
  agentOk := false
  testOk := false

/-- Closed instance of `c7_lookup_failure_means_absent`: with every
lookup raising, the gateway create is attempted with the placeholder
role, and Lab 4 returns the placeholder execution role. -/
theorem c7_lookup_failure_witness :
    RemoteCall.createGatewayCall gatewayPlaceholderRole "demo_client_id"
      ∈ (create_gateway c7Lab3Env
           ⟨"demo_client_id", "https://disc.example.com", "t"⟩).1 ∧
    create_execution_role ⟨none⟩ = runtimePlaceholderRole :=
  ⟨c7_lookup_failure_means_absent.2.2.1 c7Lab3Env
     ⟨"demo_client_id", "https://disc.example.com", "t"⟩ rfl rfl,
   c7_lookup_failure_means_absent.2.2.2 ⟨none⟩ rfl⟩

/-! ## Claim C8: cleanup sweep resilience -/

/-- Lab 6 environment in which many deletions fail: the ECR
repository, the IAM role, the SSM parameters, the secret, a log group
in every prefix, and every local file deletion all raise; a
`runtime_arn` is persisted locally. -/
def c8FailEnv : Lab6Env where
  configFile := some [("runtime_arn", "arn:runtime/r-1")]
  ssmGet := fun _ => none
  memoryClientOk := true
  deleteMemoryOk := true
  deleteEcrOk := false
  iamDeleteRoleOk := false
  ssmDeleteOk := fun _ => false
  cognitoDeletePoolOk := false
  secretsDeleteOk := false
  logGroups := fun _ => some ["/aws/lambda/customer-support-tools"]
  deleteLogGroupOk := fun _ => false
  itemExists := fun _ => true
  itemIsFile := fun _ => true
  removeOk := fun _ => false
  confirmAnswer := true

/-- C8, counterexample: the sweep does not record every deletion
failure in the ledger.  In `c8FailEnv` the ECR, secret, log-group and
local-file deletions all fail, yet the whole ledger after the run is
`⟨[], ["Runtime r-1 deleted"], [], [], [], []⟩` — it contains no entry
for any of those failures (they are only printed or passed over in the
source), while the run still returns success. -/
theorem c8_deletion_failure_unrecorded :
    c8FailEnv.deleteEcrOk = false ∧
    c8FailEnv.secretsDeleteOk = false ∧
    c8FailEnv.deleteLogGroupOk "/aws/lambda/customer-support-tools" = false ∧
    (c8FailEnv.itemExists "lab_config.json" = true ∧
      c8FailEnv.removeOk "lab_config.json" = false) ∧
    lab6_run false c8FailEnv =
      ⟨allCategories, ⟨[], ["Runtime r-1 deleted"], [], [], [], []⟩, true⟩ := by
  refine ⟨rfl, rfl, rfl, ⟨rfl, rfl⟩, ?_⟩
  decide

/-- C8, amended: for every configuration state (resources present,
gone, or never created) the cleanup run — once past the optional
confirmation — sweeps all six categories in order, never lets a
deletion failure halt the sweep, and returns success; a failed memory
deletion is recorded in the ledger as a warning entry, but other
deletion failures leave no ledger entry: a failed ECR deletion leaves
the runtime ledger with only the unconditional runtime entry, and
failing local-file removals leave the files ledger empty.  Since this
holds for every environment, it holds in particular for the
environment left behind by a previous sweep, so a second run in
succession also completes without raising. -/
theorem c8_cleanup_sweep_total :
    ∀ (interactive : Bool) (env : Lab6Env),
      (interactive = true → env.confirmAnswer = true) →
      (lab6_run interactive env).success = true ∧
      (lab6_run interactive env).attempted = allCategories ∧
      (∀ mid : String, getKey (load_configuration env) "memory_id" = some mid →
        env.memoryClientOk = true → env.deleteMemoryOk = false →
        (lab6_run interactive env).ledger.memory = ["Memory cleanup warning:"]) ∧
      (∀ arn : String, getKey (load_configuration env) "runtime_arn" = some arn →
        env.deleteEcrOk = false →
        (lab6_run interactive env).ledger.runtime =
          ["Runtime " ++ lastSegment arn ++ " deleted"]) ∧
      ((∀ item, env.removeOk item = false) →
        (lab6_run interactive env).ledger.files = []) := by
  intro interactive env hconf
  have hgate : (interactive && !env.confirmAnswer) = false := by
    cases hi : interactive
    · rfl
    · simp [hconf hi]
  refine ⟨?_, ?_, ?_, ?_, ?_⟩
  · unfold lab6_run
    rw [hgate]
    rfl
  · unfold lab6_run
    rw [hgate]
    rfl
  · intro mid hmid hclient hdel
    unfold lab6_run
    rw [hgate]
    show (cleanup_memory_resources env (load_configuration env)).1 = _
    unfold cleanup_memory_resources
    rw [hclient, hmid, hdel]
    rfl
  · intro arn harn hecr
    unfold lab6_run
    rw [hgate]
    show (cleanup_runtime_resources env (load_configuration env)).1 = _
    unfold cleanup_runtime_resources
    rw [harn, hecr]
    rfl
  · intro hremove
    unfold lab6_run
    rw [hgate]
    show (cleanup_local_files env).1 = _
    unfold cleanup_local_files
    simp [itemsToRemove, hremove]

/-- Lab 6 environment: a `memory_id` and a `runtime_arn` are
persisted, the memory and ECR deletions and every local removal raise,
and the run is non-interactive. -/
def c8Env : Lab6Env where
  configFile := some [("memory_id", "mem-0123456789abcdef"), ("runtime_arn", "arn:runtime/r-1")]
  ssmGet := fun _ => none
  memoryClientOk := true
  deleteMemoryOk := false
  deleteEcrOk := false
  iamDeleteRoleOk := false
  ssmDeleteOk := fun _ => false
  cognitoDeletePoolOk := false
  secretsDeleteOk := false
  logGroups := fun _ => none
  deleteLogGroupOk := fun _ => false
  itemExists := fun _ => true
  itemIsFile := fun _ => true
  removeOk := fun _ => false
  confirmAnswer := false

/-- Closed instance of `c8_cleanup_sweep_total`: with the memory, ECR
and file deletions all failing, the sweep visits all six categories,
returns success, records the memory failure as a ledger warning, and
records nothing for the ECR and file failures. -/
theorem c8_cleanup_witness :
    (lab6_run false c8Env).success = true ∧
    (lab6_run false c8Env).attempted = allCategories ∧
    (lab6_run false c8Env).ledger.memory = ["Memory cleanup warning:"] ∧
    (lab6_run false c8Env).ledger.runtime = ["Runtime r-1 deleted"] ∧
    (lab6_run false c8Env).ledger.files = [] :=
  have h := c8_cleanup_sweep_total false c8Env (fun hh => nomatch hh)
  ⟨h.1, h.2.1,
   h.2.2.1 "mem-0123456789abcdef" (by decide) rfl rfl,
   h.2.2.2.1 "arn:runtime/r-1" (by decide) rfl,
   h.2.2.2.2 (fun _ => rfl)⟩

/-! ## Claim C9: target attachment is non-critical, gateway creation is critical -/

/-- C9: `add_lambda_target` returns `True` for every environment —
also when `create_gateway_target` raises — and `Lab3Implementation.run`
proceeds past it to the agent step; whereas when `create_gateway`
fails, `run` returns `False`. -/
theorem c9_target_noncritical_gateway_critical :
    (∀ (env : Lab3Env) (gid : String), (add_lambda_target env gid).2 = true) ∧
    (∀ (env : Lab3Env) (m : Option String) (file : Option Config),
        (create_gateway env (get_or_create_cognito env).2).2 = none →
        (lab3_run env m file).success = false) ∧
    (∀ (env : Lab3Env) (m : Option String) (file : Option Config) (gw : String × String),
        env.createTargetResult = none →
        (create_gateway env (get_or_create_cognito env).2).2 = some gw →
        env.agentOk = true →
        Lab3Step.agent ∈ (lab3_run env m file).steps) := by
  refine ⟨?_, ?_, ?_⟩
  · intro env gid
    unfold add_lambda_target
    cases env.createTargetResult <;> rfl
  · intro env m file hg
    unfold lab3_run
    simp [hg]
  · intro env m file gw _htarget hg ha
    unfold lab3_run
    by_cases ht : env.testOk <;> simp [hg, ha, ht]

/-- Lab 3 environment in which the gateway creation succeeds but the
target attachment raises. -/
def c9Env : Lab3Env where
  region := "us-east-1"
  ssmParam := fun _ => none
  getGatewayUrl := fun _ => none
  createGatewayResult := some ("gw-1", "https://gw.example.com")
  ssmPutOk := fun _ => true
  createTargetResult := none
  agentOk := true
  testOk := true

/-- Closed instance of `c9_target_noncritical_gateway_critical`: with
the target attachment raising, the run still reaches the agent step. -/
theorem c9_criticality_witness :
    Lab3Step.agent ∈ (lab3_run c9Env none none).steps :=
  c9_target_noncritical_gateway_critical.2.2 c9Env none none ("gw-1", "https://gw.example.com")
    rfl (by decide) rfl

end Agentcore
